import Mathlib

/-!
Shallow embedding of the Basecamp boot-resilience and network-bootstrap
controller, translated from `Basecamp.cpp` / `Basecamp.hpp` and
`WifiControl.cpp` / `WifiControl.hpp`.

The ESP32 `Preferences` store (namespace "basecamp") and the JSON-backed
`Configuration` store are external collaborators; they are modeled at the
interface the source uses: namespaced key-value maps with typed get/put,
`clear`, and an explicit flush (`end`).
-/

/-- A value stored in the ESP32 `Preferences` key-value store: either a
32-bit unsigned integer (`putUInt`/`getUInt`) or a string
(`putString`/`getString`). -/
inductive PrefValue where
  | uintVal (n : Nat)
  | strVal (s : String)
  deriving DecidableEq

/-- The contents of the "basecamp" `Preferences` namespace, as an
association list (later puts shadow earlier entries). -/
abbrev Prefs := List (String × PrefValue)

/-- Raw lookup of a key in the preferences namespace. -/
def prefsGetRaw (p : Prefs) (k : String) : Option PrefValue :=
  (p.find? (fun e => e.1 == k)).map (fun e => e.2)

/-- Model of `Preferences::getUInt(key, default)`: the stored unsigned integer, or
the default when the key is absent (or holds a value of another type). -/
def prefsGetUInt (p : Prefs) (k : String) (d : Nat) : Nat :=
  match prefsGetRaw p k with
  | some (PrefValue.uintVal n) => n
  | _ => d

/-- Model of `Preferences::getString(key, default)`. -/
def prefsGetString (p : Prefs) (k : String) (d : String) : String :=
  match prefsGetRaw p k with
  | some (PrefValue.strVal s) => s
  | _ => d

/-- Store a value under a key, replacing any previous entry. -/
def prefsPut (p : Prefs) (k : String) (v : PrefValue) : Prefs :=
  (k, v) :: p.filter (fun e => e.1 != k)

/-- Model of `Preferences::putUInt`; it stores a 32-bit unsigned integer. -/
def prefsPutUInt (p : Prefs) (k : String) (n : Nat) : Prefs :=
  prefsPut p k (PrefValue.uintVal (n % 4294967296))

/-- Model of `Preferences::putString`. -/
def prefsPutString (p : Prefs) (k : String) (s : String) : Prefs :=
  prefsPut p k (PrefValue.strVal s)

/-- The `Configuration` store: string keys to string values. -/
abbrev Config := List (String × String)

/-- Model of `Configuration::get(key)`: the stored value, or the empty string when
the key is absent. -/
def configGet (c : Config) (k : String) : String :=
  match c.find? (fun e => e.1 == k) with
  | some e => e.2
  | none => ""

/-- Model of `Configuration::isKeySet(key)`. -/
def configIsKeySet (c : Config) (k : String) : Bool :=
  (c.find? (fun e => e.1 == k)).isSome

/-- Model of `Configuration::set(key, value)`. -/
def configSet (c : Config) (k v : String) : Config :=
  (k, v) :: c.filter (fun e => e.1 != k)

/-- The recovery decision that `Basecamp::checkResetReason` signals:
continue booting, or one of the two escalated recovery reboots. -/
inductive RecoveryAction where
  | continueNormalBoot
  | resetNetworkConfigAndReboot
  | factoryResetAndReboot
  deriving DecidableEq

/-- Whether the hardware reset reason qualifies as an unsuccessful-boot
cause: power cycle (1) or RTC/button reset (16), from
`if (reason == 1 || reason == 16)` in `Basecamp::checkResetReason`. -/
def qualifyingReason (reason : Nat) : Bool :=
  reason == 1 || reason == 16

/-- The observable outcome of `Basecamp::checkResetReason`: the
preferences namespace and in-memory configuration afterwards, whether
`configuration.save()` and `SPIFFS.format()` were called, whether
`preferences.end()` (the durability flush) ran before returning or
rebooting, and the signalled recovery action. -/
structure CheckResult where
  prefs : Prefs
  config : Config
  configSaved : Bool
  spiffsFormatted : Bool
  prefsFlushed : Bool
  action : RecoveryAction
  deriving DecidableEq

/-- Translation of `Basecamp::checkResetReason`, branch by branch.  The
incremented counter wraps as a C `unsigned int` (32 bits).  `ESP.restart()`
in the two recovery branches is represented by the returned action. -/
def checkResetReason (reason : Nat) (prefs : Prefs) (config : Config) : CheckResult :=
  if qualifyingReason reason then
    let bootCounter := (prefsGetUInt prefs "bootcounter" 0 + 1) % 4294967296
    if bootCounter > 3 then
      { prefs := [], config := configSet config "WifiConfigured" "False",
        configSaved := true, spiffsFormatted := false, prefsFlushed := true,
        action := RecoveryAction.resetNetworkConfigAndReboot }
    else if bootCounter > 2 ∧ configGet config "WifiConfigured" = "False" then
      { prefs := [], config := config,
        configSaved := false, spiffsFormatted := true, prefsFlushed := true,
        action := RecoveryAction.factoryResetAndReboot }
    else
      { prefs := prefsPutUInt prefs "bootcounter" bootCounter, config := config,
        configSaved := false, spiffsFormatted := false, prefsFlushed := true,
        action := RecoveryAction.continueNormalBoot }
  else
    { prefs := [], config := config,
      configSaved := false, spiffsFormatted := false, prefsFlushed := true,
      action := RecoveryAction.continueNormalBoot }

/-- The network events `WifiControl::WiFiEvent` distinguishes. -/
inductive WifiEventType where
  | staGotIp
  | staDisconnected
  | other
  deriving DecidableEq

/-- Outcome of `WifiControl::WiFiEvent`: the preferences namespace
afterwards and whether `WiFi.reconnect()` was triggered. -/
structure WifiEventResult where
  prefs : Prefs
  reconnectTriggered : Bool
  deriving DecidableEq

/-- Translation of `WifiControl::WiFiEvent`.  Here `ip`, `gatewayIp`, `subnetMask` are the
addresses the station acquired (`WiFi.localIP()` etc.), rendered as
strings, which the handler persists before zeroing the boot counter. -/
def wiFiEvent (event : WifiEventType) (ip gatewayIp subnetMask : String)
    (prefs : Prefs) : WifiEventResult :=
  match event with
  | WifiEventType.staGotIp =>
    { prefs := prefsPutUInt
        (prefsPutString
          (prefsPutString (prefsPutString prefs "ipaddress" ip) "gatewayIp" gatewayIp)
          "subnetMask" subnetMask)
        "bootcounter" 0,
      reconnectTriggered := false }
  | WifiEventType.staDisconnected => { prefs := prefs, reconnectTriggered := true }
  | WifiEventType.other => { prefs := prefs, reconnectTriggered := false }

/-- Minimum access point secret length (`minApSecretLength` in
`WifiControl.cpp`, also `WifiControl::getMinimumSecretLength`). -/
def minApSecretLength : Nat := 8

/-- Default length for the access point password
(`defaultApSecretLength` in `Basecamp.cpp`). -/
def defaultApSecretLength : Nat := 8

/-- The character set of `WifiControl::generateRandomSecret`, copied
verbatim from the `validChars` string in the source. -/
def validChars : String := "abcdefghjkmnopqrstuvwxyzABCDEFGHJKMNPQRSTUVWXYZ23456789.-,:$/"

/-- Translation of `WifiControl::generateRandomSecret`.  Here `rand i` models the value the
i-th call of `esp_random()` returns; each output character is
`validChars[randomValue % validChars.length()]`. -/
def generateRandomSecret (rand : Nat → Nat) (length : Nat) : String :=
  let useLength := if length < minApSecretLength then minApSecretLength else length
  String.mk ((List.range useLength).map
    (fun i => validChars.toList.getD (rand i % validChars.length) 'a'))

/-- One dotted-quad octet, as `IPAddress::fromString` of the Arduino core
(external collaborator) accepts it: one to three decimal digits with value
at most 255. -/
def parseOctet (cs : List Char) : Option Nat :=
  if cs.length = 0 ∨ cs.length > 3 then none
  else if cs.all Char.isDigit then
    let n := cs.foldl (fun a c => a * 10 + (c.toNat - 48)) 0
    if n ≤ 255 then some n else none
  else none

/-- Split a character list at every dot (the components of a dotted-quad
address string). -/
def splitOnDot : List Char → List (List Char)
  | [] => [[]]
  | c :: rest =>
    if c = '.' then [] :: splitOnDot rest
    else
      match splitOnDot rest with
      | [] => [[c]]
      | h :: t => (c :: h) :: t

/-- Model of `IPAddress::fromString` (Arduino core, external collaborator): a
dotted quad of four valid octets, rejecting anything else. -/
def ipFromString (s : String) : Option (Nat × Nat × Nat × Nat) :=
  match splitOnDot s.toList with
  | [a, b, c, d] =>
    match parseOctet a, parseOctet b, parseOctet c, parseOctet d with
    | some x, some y, some z, some w => some (x, y, z, w)
    | _, _, _, _ => none
  | _ => none

/-- Render an address for the log messages (`IPAddress::toString`). -/
def ipToString (q : Nat × Nat × Nat × Nat) : String :=
  toString q.1 ++ "." ++ toString q.2.1 ++ "." ++ toString q.2.2.1 ++ "." ++ toString q.2.2.2

/-- Translation of `WifiControl::Mode`. -/
inductive WifiMode where
  | unconfigured
  | accessPoint
  | client
  deriving DecidableEq

/-- The observable outcome of `WifiControl::begin`: the operation mode,
the static address configuration handed to `WiFi.config` (if any),
whether a client connection (`WiFi.begin`) or a soft AP (`WiFi.softAP`)
was started and with which parameters, and the debug/serial lines
printed along the way. -/
structure WifiBeginResult where
  operationMode : WifiMode
  staticConfig : Option ((Nat × Nat × Nat × Nat) × (Nat × Nat × Nat × Nat) × (Nat × Nat × Nat × Nat))
  connectionStarted : Bool
  staEssid : Option String
  staPassword : Option String
  hostnameUsed : Option String
  softApStarted : Bool
  softApPassword : Option String
  apName : String
  logs : List String
  deriving DecidableEq

/-- Translation of `WifiControl::begin`, branch by branch.  Here `mac` is the
hardware MAC rendered without delimiter (`getHardwareMacAddress()`), used
for the AP name; `prefs` is the read-only "basecamp" preferences
namespace holding the cached address triple. -/
def wifiControlBegin (essid password configured hostname apSecret mac : String)
    (prefs : Prefs) : WifiBeginResult :=
  let apName := "PixelTube_" ++ mac
  if configured = "True" then
    match ipFromString (prefsGetString prefs "ipaddress" ""),
          ipFromString (prefsGetString prefs "gatewayIp" ""),
          ipFromString (prefsGetString prefs "subnetMask" "") with
    | some ip, some gatewayIp, some subnetMask =>
      { operationMode := WifiMode.client,
        staticConfig := some (ip, gatewayIp, subnetMask),
        connectionStarted := true, staEssid := some essid, staPassword := some password,
        hostnameUsed := some hostname, softApStarted := false, softApPassword := none,
        apName := apName,
        logs := ["Connecting to Wifi", "Wifi is configured", "Connecting to " ++ essid,
                 "Requesting static IP " ++ ipToString ip,
                 "Gateway IP " ++ ipToString gatewayIp,
                 "Subnet mask " ++ ipToString subnetMask] }
    | _, _, _ =>
      { operationMode := WifiMode.client,
        staticConfig := none,
        connectionStarted := true, staEssid := some essid, staPassword := some password,
        hostnameUsed := some hostname, softApStarted := false, softApPassword := none,
        apName := apName,
        logs := ["Connecting to Wifi", "Wifi is configured", "Connecting to " ++ essid] }
  else
    if apSecret.length > 0 then
      { operationMode := WifiMode.accessPoint,
        staticConfig := none,
        connectionStarted := false, staEssid := none, staPassword := none,
        hostnameUsed := none, softApStarted := true, softApPassword := some apSecret,
        apName := apName,
        logs := ["Connecting to Wifi", "Wifi is NOT configured",
                 "Starting Wifi AP " ++ apName,
                 "Starting AP with password " ++ apSecret] }
    else
      { operationMode := WifiMode.accessPoint,
        staticConfig := none,
        connectionStarted := false, staEssid := none, staPassword := none,
        hostnameUsed := none, softApStarted := true, softApPassword := none,
        apName := apName,
        logs := ["Connecting to Wifi", "Wifi is NOT configured",
                 "Starting Wifi AP " ++ apName] }

/-- Translation of `Basecamp::SetupModeWifiEncryption`. -/
inductive SetupModeWifiEncryption where
  | none
  | secured
  deriving DecidableEq

/-- The key `ConfigurationKey::accessPointSecret` is declared in
`Configuration.hpp` (outside the four translated files); modeled as a
fixed distinguished configuration key. -/
def accessPointSecretKey : String := "accessPointSecret"

/-- The warning `Basecamp::begin` prints when the caller-supplied fixed
AP secret is shorter than the minimum. -/
def apSecretTooShortWarning : String := "Error: Given fixed ap secret is too short. Refusing."

/-- The observable outcome of `Basecamp::begin` up to and including the
access-point-secret resolution: the final setup-mode encryption flag, the
configuration store, whether `configuration.save()` ran in the secret
block, the preferences namespace, the recovery action `checkResetReason`
signalled (a non-continue action aborts the boot with a restart before
the secret block runs), and the serial lines `begin` itself printed. -/
structure BasecampBeginResult where
  encryption : SetupModeWifiEncryption
  config : Config
  secretSaved : Bool
  prefs : Prefs
  action : RecoveryAction
  spiffsFormatted : Bool
  serialLines : List String
  deriving DecidableEq

/-- Translation of `Basecamp::begin(fixedWiFiApEncryptionPassword)`, up to the
secret-resolution block.  `enc0` is the constructor-given encryption mode,
`config` the loaded configuration, `prefs` the "basecamp" preferences
namespace, `reason` the hardware reset reason, and `rand` the random
source used if a secret must be generated. -/
def basecampBegin (fixedPw : String) (enc0 : SetupModeWifiEncryption)
    (config : Config) (prefs : Prefs) (reason : Nat) (rand : Nat → Nat) :
    BasecampBeginResult :=
  let enc1 := if fixedPw.length ≠ 0 ∧ fixedPw.length ≥ minApSecretLength then
      SetupModeWifiEncryption.secured
    else enc0
  let warn := if fixedPw.length ≠ 0 ∧ fixedPw.length < minApSecretLength then
      [apSecretTooShortWarning]
    else []
  let lines0 := warn ++ ["", "Basecamp Startup"]
  let r := checkResetReason reason prefs config
  if r.action = RecoveryAction.continueNormalBoot then
    if configIsKeySet r.config accessPointSecretKey = false ∨
        fixedPw.length ≥ minApSecretLength then
      if fixedPw.length < minApSecretLength then
        { encryption := enc1,
          config := configSet r.config accessPointSecretKey
            (generateRandomSecret rand defaultApSecretLength),
          secretSaved := true, prefs := r.prefs, action := r.action,
          spiffsFormatted := r.spiffsFormatted,
          serialLines := lines0 ++ ["Generating access point secret."] }
      else
        { encryption := enc1,
          config := configSet r.config accessPointSecretKey fixedPw,
          secretSaved := true, prefs := r.prefs, action := r.action,
          spiffsFormatted := r.spiffsFormatted,
          serialLines := lines0 ++ ["Using fixed access point secret."] }
    else
      { encryption := enc1, config := r.config, secretSaved := false,
        prefs := r.prefs, action := r.action,
        spiffsFormatted := r.spiffsFormatted, serialLines := lines0 }
  else
    { encryption := enc1, config := r.config, secretSaved := false,
      prefs := r.prefs, action := r.action,
      spiffsFormatted := r.spiffsFormatted, serialLines := lines0 }

/-- An externally observable event fed to the persistent boot-failure
state: a boot with its hardware reset reason (running
`Basecamp::checkResetReason`), a successful address acquisition
(`SYSTEM_EVENT_STA_GOT_IP` in `WifiControl::WiFiEvent`), or a station
disconnect. -/
inductive BcEvent where
  | boot (reason : Nat)
  | gotIp (ip gatewayIp subnetMask : String)
  | disconnected
  deriving DecidableEq

/-- The persistent state the boot-resilience logic threads through a
sequence of events: the "basecamp" preferences namespace and the
configuration store. -/
structure SysState where
  prefs : Prefs
  config : Config
  deriving DecidableEq

/-- One event step of the system. -/
def stepEvent (st : SysState) (ev : BcEvent) : SysState :=
  match ev with
  | BcEvent.boot reason =>
    let r := checkResetReason reason st.prefs st.config
    { prefs := r.prefs, config := r.config }
  | BcEvent.gotIp ip gatewayIp subnetMask =>
    { prefs := (wiFiEvent WifiEventType.staGotIp ip gatewayIp subnetMask st.prefs).prefs,
      config := st.config }
  | BcEvent.disconnected => st

/-- Run a sequence of events. -/
def runEvents (st : SysState) (evs : List BcEvent) : SysState :=
  evs.foldl stepEvent st

/-- The persisted unsuccessful-boot counter of a state. -/
def bootCounterOf (st : SysState) : Nat :=
  prefsGetUInt st.prefs "bootcounter" 0

/-- The counter value claim C3 predicts after one more event: reset to 0
by a non-qualifying cause or an address acquisition, incremented by a
qualifying cause, untouched otherwise. -/
def claimedStreakStep (c : Nat) (ev : BcEvent) : Nat :=
  match ev with
  | BcEvent.boot reason => if qualifyingReason reason then c + 1 else 0
  | BcEvent.gotIp _ _ _ => 0
  | BcEvent.disconnected => c

/-- The number of consecutive qualifying reset causes since the last
non-qualifying cause or successful address acquisition, as claim C3
words it. -/
def claimedStreak (evs : List BcEvent) : Nat :=
  evs.foldl claimedStreakStep 0

/-- The amended prediction: the counter is additionally cleared whenever
the boot evaluation signals a recovery action (which erases the
preferences namespace before rebooting). -/
def amendedStreakStep (p : SysState × Nat) (ev : BcEvent) : SysState × Nat :=
  (stepEvent p.1 ev,
    match ev with
    | BcEvent.boot reason =>
      if qualifyingReason reason then
        if (checkResetReason reason p.1.prefs p.1.config).action
            = RecoveryAction.continueNormalBoot then p.2 + 1
        else 0
      else 0
    | BcEvent.gotIp _ _ _ => 0
    | BcEvent.disconnected => p.2)

/-- The amended streak count over a whole event sequence. -/
def amendedStreak (st : SysState) (evs : List BcEvent) : Nat :=
  (evs.foldl amendedStreakStep (st, 0)).2

/-- The alphabet exactly as claim C7 describes it: all lowercase and
uppercase ASCII letters except the letter "O", the digits 2 through 9,
and the punctuation marks of the source's character set. -/
def claimedAlphabetC7 (c : Char) : Prop :=
  ((c.isLower ∨ c.isUpper) ∧ c ≠ 'O') ∨ ('2' ≤ c ∧ c ≤ '9') ∨
    c ∈ (['.', '-', ',', ':', '$', '/'] : List Char)

instance (c : Char) : Decidable (claimedAlphabetC7 c) := by
  unfold claimedAlphabetC7
  infer_instance

/-- The character set `validChars` actually consists of: lowercase
letters except "i" and "l", uppercase letters except "I", "L" and "O",
the digits 2 through 9, and the punctuation marks ".-,:$/". -/
def actualAlphabet (c : Char) : Prop :=
  (c.isLower ∧ c ≠ 'i' ∧ c ≠ 'l') ∨ (c.isUpper ∧ c ≠ 'I' ∧ c ≠ 'L' ∧ c ≠ 'O') ∨
    ('2' ≤ c ∧ c ≤ '9') ∨ c ∈ (['.', '-', ',', ':', '$', '/'] : List Char)

instance (c : Char) : Decidable (actualAlphabet c) := by
  unfold actualAlphabet
  infer_instance

/-- First boot of the C1 end-to-end scenario: fresh counter,
"WifiConfigured" = "True", a power-cycle reset (reason 1). -/
def c1Boot1 : CheckResult := checkResetReason 1 [] [("WifiConfigured", "True")]

/-- Second consecutive qualifying reset of the C1 scenario. -/
def c1Boot2 : CheckResult := checkResetReason 1 c1Boot1.prefs c1Boot1.config

/-- Third consecutive qualifying reset of the C1 scenario. -/
def c1Boot3 : CheckResult := checkResetReason 1 c1Boot2.prefs c1Boot2.config

/-- Fourth consecutive qualifying reset of the C1 scenario. -/
def c1Boot4 : CheckResult := checkResetReason 1 c1Boot3.prefs c1Boot3.config

theorem prefsGetRaw_prefsPut_same (p : Prefs) (k : String) (v : PrefValue) :
    prefsGetRaw (prefsPut p k v) k = some v := by
  simp [prefsGetRaw, prefsPut, List.find?]

theorem find?_filter_ne (p : Prefs) (k k' : String) (h : k' ≠ k) :
    (p.filter (fun e => e.1 != k)).find? (fun e => e.1 == k')
      = p.find? (fun e => e.1 == k') := by
  induction p with
  | nil => rfl
  | cons e t ih =>
    obtain ⟨k1, v1⟩ := e
    by_cases he : k1 = k
    · subst he
      have h2 : (k1 == k') = false := by
        simp only [beq_eq_false_iff_ne, ne_eq]
        exact fun hk => h hk.symm
      simp [List.filter_cons, List.find?_cons, h2, ih]
    · have h1 : (k1 != k) = true := by simp [he]
      by_cases he' : k1 = k'
      · subst he'
        simp [List.filter_cons, List.find?_cons, h1]
      · have h2 : (k1 == k') = false := by simp [he']
        simp [List.filter_cons, List.find?_cons, h1, h2, ih]

theorem prefsGetRaw_prefsPut_ne (p : Prefs) (k k' : String) (v : PrefValue)
    (h : k' ≠ k) :
    prefsGetRaw (prefsPut p k v) k' = prefsGetRaw p k' := by
  have hk : (k == k') = false := by
    simp only [beq_eq_false_iff_ne, ne_eq]
    exact fun hk => h hk.symm
  simp [prefsGetRaw, prefsPut, List.find?_cons, hk, find?_filter_ne p k k' h]

theorem prefsGetUInt_prefsPutUInt_same (p : Prefs) (k : String) (n : Nat) :
    prefsGetUInt (prefsPutUInt p k n) k 0 = n % 4294967296 := by
  simp [prefsGetUInt, prefsPutUInt, prefsGetRaw_prefsPut_same]

theorem prefsGetString_prefsPutString_same (p : Prefs) (k s : String) :
    prefsGetString (prefsPutString p k s) k "" = s := by
  simp [prefsGetString, prefsPutString, prefsGetRaw_prefsPut_same]

theorem prefsGetUInt_prefsPutString_ne (p : Prefs) (k k' : String) (s : String)
    (h : k' ≠ k) :
    prefsGetUInt (prefsPutString p k s) k' 0 = prefsGetUInt p k' 0 := by
  simp [prefsGetUInt, prefsPutString, prefsGetRaw_prefsPut_ne p k k' _ h]

theorem prefsGetString_prefsPut_ne (p : Prefs) (k k' : String) (v : PrefValue)
    (h : k' ≠ k) :
    prefsGetString (prefsPut p k v) k' "" = prefsGetString p k' "" := by
  simp [prefsGetString, prefsGetRaw_prefsPut_ne p k k' _ h]

theorem configGet_configSet_same (c : Config) (k v : String) :
    configGet (configSet c k v) k = v := by
  simp [configGet, configSet, List.find?]

/-- C1: on a boot with a qualifying reset cause whose persisted counter
is 3, `checkResetReason` sets "WifiConfigured" to "False", saves the
configuration, clears the counter to 0 (by erasing the namespace),
flushes the preferences store, and signals the network-config-reset
reboot; and starting from counter 0 with "WifiConfigured" = "True",
three consecutive qualifying resets continue the normal boot (the
counter reaching 3) and the fourth triggers the network-config reset,
exactly once across the four boots. -/
theorem checkResetReason_networkConfigReset :
    (∀ (reason : Nat) (prefs : Prefs) (config : Config),
      qualifyingReason reason = true →
      prefsGetUInt prefs "bootcounter" 0 = 3 →
      (checkResetReason reason prefs config).action
          = RecoveryAction.resetNetworkConfigAndReboot ∧
        configGet (checkResetReason reason prefs config).config "WifiConfigured" = "False" ∧
        (checkResetReason reason prefs config).configSaved = true ∧
        prefsGetUInt (checkResetReason reason prefs config).prefs "bootcounter" 0 = 0 ∧
        (checkResetReason reason prefs config).prefsFlushed = true) ∧
    (c1Boot1.action = RecoveryAction.continueNormalBoot ∧
      c1Boot2.action = RecoveryAction.continueNormalBoot ∧
      c1Boot3.action = RecoveryAction.continueNormalBoot ∧
      prefsGetUInt c1Boot3.prefs "bootcounter" 0 = 3 ∧
      c1Boot4.action = RecoveryAction.resetNetworkConfigAndReboot ∧
      prefsGetUInt c1Boot4.prefs "bootcounter" 0 = 0 ∧
      configGet c1Boot4.config "WifiConfigured" = "False") := by
  constructor
  · intro reason prefs config hq h3
    have hcrr : checkResetReason reason prefs config
        = { prefs := [], config := configSet config "WifiConfigured" "False",
            configSaved := true, spiffsFormatted := false, prefsFlushed := true,
            action := RecoveryAction.resetNetworkConfigAndReboot } := by
      unfold checkResetReason
      simp [hq, h3]
    rw [hcrr]
    exact ⟨rfl, configGet_configSet_same _ _ _, rfl, rfl, rfl⟩
  · decide

/-- Closed instance of the first part of C1's theorem, at counter 3 and
reset reason 16. -/
theorem checkResetReason_networkConfigReset_witness :
    qualifyingReason 16 = true ∧
    prefsGetUInt [("bootcounter", PrefValue.uintVal 3)] "bootcounter" 0 = 3 ∧
    (checkResetReason 16 [("bootcounter", PrefValue.uintVal 3)] []).action
      = RecoveryAction.resetNetworkConfigAndReboot :=
  ⟨by decide, by decide,
    (checkResetReason_networkConfigReset.1 16 [("bootcounter", PrefValue.uintVal 3)] []
      (by decide) (by decide)).1⟩

/-- C2: on a boot with a qualifying reset cause, persisted counter 2 and
"WifiConfigured" = "False", `checkResetReason` formats the
filesystem-backed configuration area (SPIFFS), clears the persisted
counter, flushes the preferences store, and signals the factory-reset
reboot. -/
theorem checkResetReason_factoryReset (reason : Nat) (prefs : Prefs) (config : Config)
    (hq : qualifyingReason reason = true)
    (hc : prefsGetUInt prefs "bootcounter" 0 = 2)
    (hcfg : configGet config "WifiConfigured" = "False") :
    (checkResetReason reason prefs config).action = RecoveryAction.factoryResetAndReboot ∧
    (checkResetReason reason prefs config).spiffsFormatted = true ∧
    (checkResetReason reason prefs config).prefs = [] ∧
    prefsGetUInt (checkResetReason reason prefs config).prefs "bootcounter" 0 = 0 ∧
    (checkResetReason reason prefs config).prefsFlushed = true := by
  have hcrr : checkResetReason reason prefs config
      = { prefs := [], config := config,
          configSaved := false, spiffsFormatted := true, prefsFlushed := true,
          action := RecoveryAction.factoryResetAndReboot } := by
    unfold checkResetReason
    simp [hq, hc, hcfg]
  rw [hcrr]
  exact ⟨rfl, rfl, rfl, rfl, rfl⟩

/-- Closed instance of C2's theorem: counter 2, unconfigured, reason 1. -/
theorem checkResetReason_factoryReset_witness :
    qualifyingReason 1 = true ∧
    prefsGetUInt [("bootcounter", PrefValue.uintVal 2)] "bootcounter" 0 = 2 ∧
    configGet [("WifiConfigured", "False")] "WifiConfigured" = "False" ∧
    (checkResetReason 1 [("bootcounter", PrefValue.uintVal 2)]
      [("WifiConfigured", "False")]).action = RecoveryAction.factoryResetAndReboot :=
  ⟨by decide, by decide, by decide,
    (checkResetReason_factoryReset 1 [("bootcounter", PrefValue.uintVal 2)]
      [("WifiConfigured", "False")] (by decide) (by decide) (by decide)).1⟩

/-- C10: every branch of `checkResetReason` that clears the boot counter
(the two recovery branches and the non-qualifying-cause branch) does so
with `preferences.clear()`, which erases the entire "basecamp"
namespace: afterwards the namespace is empty, so the cached network
parameters (ipaddress, gatewayIp, subnetMask) and every other key are
gone and the counter reads as 0. -/
theorem checkResetReason_clear_erases_namespace (reason : Nat) (prefs : Prefs)
    (config : Config)
    (h : qualifyingReason reason = false ∨
      (checkResetReason reason prefs config).action ≠ RecoveryAction.continueNormalBoot) :
    (checkResetReason reason prefs config).prefs = [] ∧
    prefsGetRaw (checkResetReason reason prefs config).prefs "ipaddress" = none ∧
    prefsGetRaw (checkResetReason reason prefs config).prefs "gatewayIp" = none ∧
    prefsGetRaw (checkResetReason reason prefs config).prefs "subnetMask" = none ∧
    prefsGetUInt (checkResetReason reason prefs config).prefs "bootcounter" 0 = 0 := by
  have hp : (checkResetReason reason prefs config).prefs = [] := by
    by_cases hq : qualifyingReason reason = true
    · rcases h with h | h
      · rw [hq] at h
        simp at h
      · unfold checkResetReason at h ⊢
        by_cases h3 : ((prefsGetUInt prefs "bootcounter" 0 + 1) % 4294967296) > 3
        · simp [hq, h3]
        · by_cases h2 : ((prefsGetUInt prefs "bootcounter" 0 + 1) % 4294967296) > 2
              ∧ configGet config "WifiConfigured" = "False"
          · simp [hq, h3, h2]
          · exfalso
            apply h
            simp [hq, h3, h2]
    · have hq' : qualifyingReason reason = false := by
        cases hqq : qualifyingReason reason
        · rfl
        · exact absurd hqq hq
      unfold checkResetReason
      simp [hq']
  rw [hp]
  exact ⟨rfl, rfl, rfl, rfl, rfl⟩

/-- Closed instance of C10's theorem: a non-qualifying (software) reset,
reason 12, with cached parameters present beforehand. -/
theorem checkResetReason_clear_erases_namespace_witness :
    (qualifyingReason 12 = false ∨
      (checkResetReason 12 [("ipaddress", PrefValue.strVal "10.0.0.9")] []).action
        ≠ RecoveryAction.continueNormalBoot) ∧
    (checkResetReason 12 [("ipaddress", PrefValue.strVal "10.0.0.9")] []).prefs = [] ∧
    prefsGetRaw (checkResetReason 12 [("ipaddress", PrefValue.strVal "10.0.0.9")] []).prefs
      "ipaddress" = none :=
  ⟨Or.inl (by decide),
    (checkResetReason_clear_erases_namespace 12
      [("ipaddress", PrefValue.strVal "10.0.0.9")] [] (Or.inl (by decide))).1,
    (checkResetReason_clear_erases_namespace 12
      [("ipaddress", PrefValue.strVal "10.0.0.9")] [] (Or.inl (by decide))).2.1⟩

/-- C4: `WifiControl::begin` decides the operation mode solely from the
"WifiConfigured" flag (a boolean-as-string): the value "True" yields
client mode and any other value yields access-point mode, regardless of
every other input — no other signal influences the choice. -/
theorem wifiControlBegin_mode_decision
    (essid password configured hostname apSecret mac : String) (prefs : Prefs) :
    (wifiControlBegin essid password configured hostname apSecret mac prefs).operationMode
      = if configured = "True" then WifiMode.client else WifiMode.accessPoint := by
  by_cases h : configured = "True"
  · rw [if_pos h]
    simp only [wifiControlBegin, if_pos h]
    split
    · rfl
    · rfl
  · rw [if_neg h]
    simp only [wifiControlBegin, if_neg h]
    split
    · rfl
    · rfl

/-- C5: on a successful address acquisition (`SYSTEM_EVENT_STA_GOT_IP`),
`WifiControl::WiFiEvent` overwrites the persisted cached network
parameters (ipaddress, gatewayIp, subnetMask) with the newly acquired
values and resets the persisted unsuccessful-boot counter to zero. -/
theorem wiFiEvent_gotIp_updates
    (prefs : Prefs) (ip gatewayIp subnetMask : String) :
    prefsGetString (wiFiEvent WifiEventType.staGotIp ip gatewayIp subnetMask prefs).prefs
        "ipaddress" "" = ip ∧
    prefsGetString (wiFiEvent WifiEventType.staGotIp ip gatewayIp subnetMask prefs).prefs
        "gatewayIp" "" = gatewayIp ∧
    prefsGetString (wiFiEvent WifiEventType.staGotIp ip gatewayIp subnetMask prefs).prefs
        "subnetMask" "" = subnetMask ∧
    prefsGetUInt (wiFiEvent WifiEventType.staGotIp ip gatewayIp subnetMask prefs).prefs
        "bootcounter" 0 = 0 := by
  have hshape : (wiFiEvent WifiEventType.staGotIp ip gatewayIp subnetMask prefs).prefs
      = prefsPut (prefsPut (prefsPut (prefsPut prefs "ipaddress" (PrefValue.strVal ip))
          "gatewayIp" (PrefValue.strVal gatewayIp)) "subnetMask" (PrefValue.strVal subnetMask))
          "bootcounter" (PrefValue.uintVal (0 % 4294967296)) := rfl
  refine ⟨?_, ?_, ?_, ?_⟩
  · rw [hshape,
      prefsGetString_prefsPut_ne _ _ _ _ (by decide),
      prefsGetString_prefsPut_ne _ _ _ _ (by decide),
      prefsGetString_prefsPut_ne _ _ _ _ (by decide)]
    exact prefsGetString_prefsPutString_same prefs "ipaddress" ip
  · rw [hshape,
      prefsGetString_prefsPut_ne _ _ _ _ (by decide),
      prefsGetString_prefsPut_ne _ _ _ _ (by decide)]
    exact prefsGetString_prefsPutString_same _ "gatewayIp" gatewayIp
  · rw [hshape, prefsGetString_prefsPut_ne _ _ _ _ (by decide)]
    exact prefsGetString_prefsPutString_same _ "subnetMask" subnetMask
  · rw [hshape]
    have := prefsGetUInt_prefsPutUInt_same
      (prefsPut (prefsPut (prefsPut prefs "ipaddress" (PrefValue.strVal ip))
        "gatewayIp" (PrefValue.strVal gatewayIp)) "subnetMask" (PrefValue.strVal subnetMask))
      "bootcounter" 0
    simpa [prefsPutUInt] using this

/-- The length of the generated secret, independent of the random
source. -/
theorem generateRandomSecret_length_eq (rand : Nat → Nat) (length : Nat) :
    (generateRandomSecret rand length).length = max length minApSecretLength := by
  unfold generateRandomSecret
  simp only [String.length, String.mk, List.length_map, List.length_range]
  unfold minApSecretLength
  split
  · next h => omega
  · next h => omega

/-- C6: the secret generator returns a string of length exactly
max(requested, 8); in particular a request of 4 yields length 8 and a
request of 12 yields length 12. -/
theorem generateRandomSecret_length (rand : Nat → Nat) (length : Nat) :
    (generateRandomSecret rand length).length = max length minApSecretLength ∧
    (generateRandomSecret rand 4).length = 8 ∧
    (generateRandomSecret rand 12).length = 12 := by
  refine ⟨generateRandomSecret_length_eq rand length, ?_, ?_⟩
  · rw [generateRandomSecret_length_eq]
    rfl
  · rw [generateRandomSecret_length_eq]
    rfl

/-- C7 counterexample: by the claim's description of the alphabet, the
lowercase letter "i" belongs to it (a lowercase ASCII letter distinct
from "O"), yet "i" does not occur in the source's `validChars`; the
claimed composition of the alphabet does not match the code (which also
omits l, I and L, while keeping lowercase o). -/
theorem validChars_ne_claimedAlphabet :
    claimedAlphabetC7 'i' ∧ 'i' ∉ validChars.toList := by
  decide

/-- C7 (amended): every character of every generated secret belongs to
the fixed `validChars` alphabet — all lowercase ASCII letters except i
and l, all uppercase ASCII letters except I, L and O, the digits 2
through 9, and the punctuation marks ".-,:$/" — and in particular no
returned character is the ambiguous letter "O". -/
theorem generateRandomSecret_alphabet (rand : Nat → Nat) (length : Nat) (c : Char)
    (hc : c ∈ (generateRandomSecret rand length).toList) :
    c ∈ validChars.toList ∧ actualAlphabet c ∧ c ≠ 'O' := by
  have hmem : c ∈ validChars.toList := by
    unfold generateRandomSecret at hc
    rw [show (String.mk ((List.range (if length < minApSecretLength then minApSecretLength
        else length)).map (fun i => validChars.toList.getD (rand i % validChars.length) 'a'))).toList
        = (List.range (if length < minApSecretLength then minApSecretLength else length)).map
            (fun i => validChars.toList.getD (rand i % validChars.length) 'a') from rfl] at hc
    rcases List.mem_map.mp hc with ⟨i, _, hi⟩
    have hlt : rand i % validChars.length < validChars.toList.length := by
      have h61 : validChars.toList.length = validChars.length := by decide
      rw [h61]
      exact Nat.mod_lt _ (by decide)
    rw [List.getD_eq_getElem validChars.toList 'a' hlt] at hi
    rw [← hi]
    exact List.getElem_mem hlt
  have hall : ∀ x ∈ validChars.toList, actualAlphabet x ∧ x ≠ 'O' := by decide
  exact ⟨hmem, (hall c hmem).1, (hall c hmem).2⟩

/-- Closed instance of C7's amended theorem at a concrete generated
character. -/
theorem generateRandomSecret_alphabet_witness :
    'a' ∈ (generateRandomSecret (fun _ => 0) 4).toList ∧
    ('a' ∈ validChars.toList ∧ actualAlphabet 'a' ∧ 'a' ≠ 'O') :=
  ⟨by decide, generateRandomSecret_alphabet (fun _ => 0) 4 'a' (by decide)⟩

/-- C8 (amended): in client mode the cached static address configuration
is applied if and only if all three cached values parse as valid
addresses; when any of them is malformed or absent the static
configuration is never applied and the controller proceeds with dynamic
acquisition — and its log output is then exactly the three generic
client-branch lines, with no message reporting the invalid triple. -/
theorem wifiControlBegin_staticConfig
    (essid password hostname apSecret mac : String) (prefs : Prefs) :
    ((∃ ip gatewayIp subnetMask,
        ipFromString (prefsGetString prefs "ipaddress" "") = some ip ∧
        ipFromString (prefsGetString prefs "gatewayIp" "") = some gatewayIp ∧
        ipFromString (prefsGetString prefs "subnetMask" "") = some subnetMask ∧
        (wifiControlBegin essid password "True" hostname apSecret mac prefs).staticConfig
          = some (ip, gatewayIp, subnetMask)) ∨
      ((ipFromString (prefsGetString prefs "ipaddress" "") = none ∨
        ipFromString (prefsGetString prefs "gatewayIp" "") = none ∨
        ipFromString (prefsGetString prefs "subnetMask" "") = none) ∧
       (wifiControlBegin essid password "True" hostname apSecret mac prefs).staticConfig
          = none ∧
       (wifiControlBegin essid password "True" hostname apSecret mac prefs).logs
          = ["Connecting to Wifi", "Wifi is configured", "Connecting to " ++ essid])) ∧
    (wifiControlBegin essid password "True" hostname apSecret mac prefs).connectionStarted
      = true := by
  cases hip : ipFromString (prefsGetString prefs "ipaddress" "") with
  | none =>
    constructor
    · right
      refine ⟨Or.inl rfl, ?_, ?_⟩ <;>
        · simp only [wifiControlBegin, if_pos rfl, hip]
          rfl
    · simp only [wifiControlBegin, if_pos rfl, hip]
      rfl
  | some ip =>
    cases hgw : ipFromString (prefsGetString prefs "gatewayIp" "") with
    | none =>
      constructor
      · right
        refine ⟨Or.inr (Or.inl rfl), ?_, ?_⟩ <;>
          · simp only [wifiControlBegin, if_pos rfl, hip, hgw]
            rfl
      · simp only [wifiControlBegin, if_pos rfl, hip, hgw]
        rfl
    | some gatewayIp =>
      cases hsm : ipFromString (prefsGetString prefs "subnetMask" "") with
      | none =>
        constructor
        · right
          refine ⟨Or.inr (Or.inr rfl), ?_, ?_⟩ <;>
            · simp only [wifiControlBegin, if_pos rfl, hip, hgw, hsm]
              rfl
        · simp only [wifiControlBegin, if_pos rfl, hip, hgw, hsm]
          rfl
      | some subnetMask =>
        constructor
        · left
          refine ⟨ip, gatewayIp, subnetMask, rfl, rfl, rfl, ?_⟩
          simp only [wifiControlBegin, if_pos rfl, hip, hgw, hsm]
          rfl
        · simp only [wifiControlBegin, if_pos rfl, hip, hgw, hsm]
          rfl

/-- C8 counterexample: with a cached triple whose first address is
malformed ("999.1.2.3"), the static configuration is not applied and the
log output is identical to that of a run with no cached parameters at
all — no StaticAddressInvalid (or any other) condition is logged about
the invalid triple. -/
theorem staticAddressInvalid_not_logged :
    (wifiControlBegin "net" "pw" "True" "host" "ap" "aabbccddeeff"
      [("ipaddress", PrefValue.strVal "999.1.2.3"),
       ("gatewayIp", PrefValue.strVal "192.168.0.1"),
       ("subnetMask", PrefValue.strVal "255.255.255.0")]).staticConfig = none ∧
    (wifiControlBegin "net" "pw" "True" "host" "ap" "aabbccddeeff"
      [("ipaddress", PrefValue.strVal "999.1.2.3"),
       ("gatewayIp", PrefValue.strVal "192.168.0.1"),
       ("subnetMask", PrefValue.strVal "255.255.255.0")]).logs
      = (wifiControlBegin "net" "pw" "True" "host" "ap" "aabbccddeeff" []).logs := by
  decide

theorem basecampBegin_action_eq (fixedPw : String) (enc0 : SetupModeWifiEncryption)
    (config : Config) (prefs : Prefs) (reason : Nat) (rand : Nat → Nat) :
    (basecampBegin fixedPw enc0 config prefs reason rand).action
      = (checkResetReason reason prefs config).action := by
  simp only [basecampBegin]
  split
  · split
    · split
      · rfl
      · rfl
    · rfl
  · rfl

theorem checkResetReason_continue_config (reason : Nat) (prefs : Prefs) (config : Config)
    (h : (checkResetReason reason prefs config).action = RecoveryAction.continueNormalBoot) :
    (checkResetReason reason prefs config).config = config := by
  unfold checkResetReason at h ⊢
  by_cases hq : qualifyingReason reason = true
  · by_cases h3 : ((prefsGetUInt prefs "bootcounter" 0 + 1) % 4294967296) > 3
    · simp [hq, h3] at h
    · by_cases h2 : ((prefsGetUInt prefs "bootcounter" 0 + 1) % 4294967296) > 2
          ∧ configGet config "WifiConfigured" = "False"
      · simp [hq, h3, h2] at h
      · simp [hq, h3, h2]
  · have hq' : qualifyingReason reason = false := by
      cases hqq : qualifyingReason reason
      · rfl
      · exact absurd hqq hq
    simp [hq']

/-- C9 counterexample: on a boot in client mode ("WifiConfigured" =
"True") with setup-mode encryption "none" and no caller-supplied secret,
access-point mode with encryption is never required during the boot, yet
`Basecamp::begin` still generates and persists an access point secret
simply because none is stored — creation is not lazy. -/
theorem apSecret_created_eagerly :
    (basecampBegin "" SetupModeWifiEncryption.none [("WifiConfigured", "True")] [] 12
      (fun _ => 0)).action = RecoveryAction.continueNormalBoot ∧
    configIsKeySet [("WifiConfigured", "True")] accessPointSecretKey = false ∧
    (basecampBegin "" SetupModeWifiEncryption.none [("WifiConfigured", "True")] [] 12
      (fun _ => 0)).encryption = SetupModeWifiEncryption.none ∧
    configIsKeySet (basecampBegin "" SetupModeWifiEncryption.none
      [("WifiConfigured", "True")] [] 12 (fun _ => 0)).config accessPointSecretKey = true ∧
    configGet (basecampBegin "" SetupModeWifiEncryption.none
      [("WifiConfigured", "True")] [] 12 (fun _ => 0)).config accessPointSecretKey
      = generateRandomSecret (fun _ => 0) defaultApSecretLength := by
  refine ⟨by decide, by decide, by decide, by decide, ?_⟩
  decide

/-- C9 (amended): `Basecamp::begin` resolves the access point secret as
follows.  A caller-supplied fixed secret is used (and the instance marked
secured) exactly when its length reaches the minimum of 8; a too-short
supplied secret leaves the encryption mode unchanged, surfaces a warning,
and the persisted secret (when one exists) is kept; when no secret is
persisted, one is generated and saved during initialization — regardless
of operation mode or encryption setting, not only when access-point mode
with encryption is required — and it persists until overridden by a
sufficient-length caller-supplied secret. -/
theorem basecampBegin_secret_resolution
    (fixedPw : String) (enc0 : SetupModeWifiEncryption) (config : Config)
    (prefs : Prefs) (reason : Nat) (rand : Nat → Nat)
    (hcont : (basecampBegin fixedPw enc0 config prefs reason rand).action
      = RecoveryAction.continueNormalBoot) :
    (fixedPw.length ≥ minApSecretLength →
      (basecampBegin fixedPw enc0 config prefs reason rand).encryption
        = SetupModeWifiEncryption.secured ∧
      configGet (basecampBegin fixedPw enc0 config prefs reason rand).config
        accessPointSecretKey = fixedPw ∧
      (basecampBegin fixedPw enc0 config prefs reason rand).secretSaved = true) ∧
    (fixedPw.length < minApSecretLength →
      (basecampBegin fixedPw enc0 config prefs reason rand).encryption = enc0 ∧
      (0 < fixedPw.length →
        apSecretTooShortWarning
          ∈ (basecampBegin fixedPw enc0 config prefs reason rand).serialLines) ∧
      (configIsKeySet config accessPointSecretKey = true →
        configGet (basecampBegin fixedPw enc0 config prefs reason rand).config
            accessPointSecretKey = configGet config accessPointSecretKey) ∧
      (configIsKeySet config accessPointSecretKey = false →
        configGet (basecampBegin fixedPw enc0 config prefs reason rand).config
            accessPointSecretKey = generateRandomSecret rand defaultApSecretLength ∧
        (basecampBegin fixedPw enc0 config prefs reason rand).secretSaved = true)) := by
  have hr : (checkResetReason reason prefs config).action
      = RecoveryAction.continueNormalBoot := by
    rw [← basecampBegin_action_eq fixedPw enc0 config prefs reason rand]
    exact hcont
  have hrc : (checkResetReason reason prefs config).config = config :=
    checkResetReason_continue_config reason prefs config hr
  constructor
  · intro hlen
    have hne : fixedPw.length ≠ 0 := by
      unfold minApSecretLength at hlen
      omega
    have hnlt : ¬ fixedPw.length < minApSecretLength := by omega
    simp only [basecampBegin, hr, hrc]
    rw [if_pos trivial, if_pos (Or.inr hlen), if_neg hnlt]
    refine ⟨?_, ?_, rfl⟩
    · show (if fixedPw.length ≠ 0 ∧ fixedPw.length ≥ minApSecretLength
          then SetupModeWifiEncryption.secured else enc0) = SetupModeWifiEncryption.secured
      rw [if_pos ⟨hne, hlen⟩]
    · exact configGet_configSet_same _ _ _
  · intro hlen
    have hnge : ¬ fixedPw.length ≥ minApSecretLength := by omega
    refine ⟨?_, ?_, ?_, ?_⟩
    · simp only [basecampBegin, hr, hrc]
      have henc : (if fixedPw.length ≠ 0 ∧ fixedPw.length ≥ minApSecretLength
          then SetupModeWifiEncryption.secured else enc0) = enc0 := by
        rw [if_neg]
        intro hand
        exact hnge hand.2
      simp only [henc]
      split
      · split
        · rfl
        · rfl
      · rfl
    · intro hpos
      have hne : fixedPw.length ≠ 0 := by omega
      simp only [basecampBegin, hr, hrc]
      have hwarn : (if fixedPw.length ≠ 0 ∧ fixedPw.length < minApSecretLength
          then [apSecretTooShortWarning] else []) = [apSecretTooShortWarning] := by
        rw [if_pos ⟨hne, hlen⟩]
      simp only [hwarn]
      split
      · split
        · simp
        · simp
      · simp
    · intro hkey
      simp only [basecampBegin, hr, hrc]
      rw [if_pos trivial, if_neg]
      intro hor
      rcases hor with hfalse | hge
      · rw [hkey] at hfalse
        simp at hfalse
      · exact hnge hge
    · intro hkey
      simp only [basecampBegin, hr, hrc]
      rw [if_pos trivial, if_pos (Or.inl hkey), if_pos hlen]
      exact ⟨configGet_configSet_same _ _ _, rfl⟩

/-- Closed instance of C9's amended theorem: a sufficient-length fixed
secret on a normally continuing boot is used and marks the instance
secured. -/
theorem basecampBegin_secret_resolution_witness :
    (basecampBegin "fixedsecret1" SetupModeWifiEncryption.none [] [] 12
      (fun _ => 1)).action = RecoveryAction.continueNormalBoot ∧
    (basecampBegin "fixedsecret1" SetupModeWifiEncryption.none [] [] 12
      (fun _ => 1)).encryption = SetupModeWifiEncryption.secured ∧
    configGet (basecampBegin "fixedsecret1" SetupModeWifiEncryption.none [] [] 12
      (fun _ => 1)).config accessPointSecretKey = "fixedsecret1" :=
  ⟨by decide,
    ((basecampBegin_secret_resolution "fixedsecret1" SetupModeWifiEncryption.none [] [] 12
      (fun _ => 1) (by decide)).1 (by decide)).1,
    ((basecampBegin_secret_resolution "fixedsecret1" SetupModeWifiEncryption.none [] [] 12
      (fun _ => 1) (by decide)).1 (by decide)).2.1⟩

theorem bootCounterOf_stepEvent (st : SysState) (ev : BcEvent) (c : Nat)
    (hc : bootCounterOf st = c) (hle : c ≤ 3) :
    bootCounterOf (stepEvent st ev) = (amendedStreakStep (st, c) ev).2 ∧
    (amendedStreakStep (st, c) ev).2 ≤ 3 := by
  cases ev with
  | disconnected => exact ⟨hc, hle⟩
  | gotIp ip gatewayIp subnetMask =>
    constructor
    · show prefsGetUInt (prefsPutUInt (prefsPutString (prefsPutString
          (prefsPutString st.prefs "ipaddress" ip) "gatewayIp" gatewayIp)
          "subnetMask" subnetMask) "bootcounter" 0) "bootcounter" 0 = 0
      rw [prefsGetUInt_prefsPutUInt_same]
    · show (0 : Nat) ≤ 3
      omega
  | boot reason =>
    by_cases hq : qualifyingReason reason = true
    · have hbc : (prefsGetUInt st.prefs "bootcounter" 0 + 1) % 4294967296 = c + 1 := by
        unfold bootCounterOf at hc
        rw [hc]
        exact Nat.mod_eq_of_lt (by omega)
      by_cases h3 : c + 1 > 3
      · have hcrr : checkResetReason reason st.prefs st.config
            = { prefs := [], config := configSet st.config "WifiConfigured" "False",
                configSaved := true, spiffsFormatted := false, prefsFlushed := true,
                action := RecoveryAction.resetNetworkConfigAndReboot } := by
          unfold checkResetReason
          simp [hq, hbc, h3]
        have hrhs : (amendedStreakStep (st, c) (BcEvent.boot reason)).2 = 0 := by
          simp [amendedStreakStep, hq, hcrr]
        rw [hrhs]
        constructor
        · show prefsGetUInt (checkResetReason reason st.prefs st.config).prefs
            "bootcounter" 0 = 0
          rw [hcrr]
          rfl
        · omega
      · by_cases h2 : c + 1 > 2 ∧ configGet st.config "WifiConfigured" = "False"
        · have hcrr : checkResetReason reason st.prefs st.config
              = { prefs := [], config := st.config, configSaved := false,
                  spiffsFormatted := true, prefsFlushed := true,
                  action := RecoveryAction.factoryResetAndReboot } := by
            unfold checkResetReason
            simp [hq, hbc, h3, h2]
          have hrhs : (amendedStreakStep (st, c) (BcEvent.boot reason)).2 = 0 := by
            simp [amendedStreakStep, hq, hcrr]
          rw [hrhs]
          constructor
          · show prefsGetUInt (checkResetReason reason st.prefs st.config).prefs
              "bootcounter" 0 = 0
            rw [hcrr]
            rfl
          · omega
        · have hcrr : checkResetReason reason st.prefs st.config
              = { prefs := prefsPutUInt st.prefs "bootcounter" (c + 1), config := st.config,
                  configSaved := false, spiffsFormatted := false, prefsFlushed := true,
                  action := RecoveryAction.continueNormalBoot } := by
            unfold checkResetReason
            simp [hq, hbc, h3, h2]
          have hrhs : (amendedStreakStep (st, c) (BcEvent.boot reason)).2 = c + 1 := by
            simp [amendedStreakStep, hq, hcrr]
          rw [hrhs]
          constructor
          · show prefsGetUInt (checkResetReason reason st.prefs st.config).prefs
              "bootcounter" 0 = c + 1
            rw [hcrr]
            show prefsGetUInt (prefsPutUInt st.prefs "bootcounter" (c + 1))
              "bootcounter" 0 = c + 1
            rw [prefsGetUInt_prefsPutUInt_same]
            exact Nat.mod_eq_of_lt (by omega)
          · omega
    · have hq' : qualifyingReason reason = false := by
        cases hqq : qualifyingReason reason
        · rfl
        · exact absurd hqq hq
      have hcrr : checkResetReason reason st.prefs st.config
          = { prefs := [], config := st.config, configSaved := false,
              spiffsFormatted := false, prefsFlushed := true,
              action := RecoveryAction.continueNormalBoot } := by
        unfold checkResetReason
        simp [hq']
      have hrhs : (amendedStreakStep (st, c) (BcEvent.boot reason)).2 = 0 := by
        simp [amendedStreakStep, hq']
      rw [hrhs]
      constructor
      · show prefsGetUInt (checkResetReason reason st.prefs st.config).prefs
          "bootcounter" 0 = 0
        rw [hcrr]
        rfl
      · omega

theorem bootCounterOf_runEvents (evs : List BcEvent) :
    ∀ (st : SysState) (c : Nat), bootCounterOf st = c → c ≤ 3 →
      bootCounterOf (runEvents st evs) = (evs.foldl amendedStreakStep (st, c)).2 ∧
      (evs.foldl amendedStreakStep (st, c)).2 ≤ 3 := by
  induction evs with
  | nil =>
    intro st c hc hle
    exact ⟨hc, hle⟩
  | cons ev t ih =>
    intro st c hc hle
    have hstep := bootCounterOf_stepEvent st ev c hc hle
    exact ih (stepEvent st ev) ((amendedStreakStep (st, c) ev).2) hstep.1 hstep.2

/-- C3 counterexample: starting from a fresh (empty) namespace with
"WifiConfigured" = "True", four consecutive qualifying resets leave the
persisted counter at 0 — the fourth evaluation fires the network-config
recovery and erases the namespace — while the number of consecutive
qualifying causes since the last non-qualifying cause or address
acquisition is 4.  The claimed invariant therefore fails. -/
theorem bootCounter_ne_claimedStreak :
    bootCounterOf (runEvents ⟨[], [("WifiConfigured", "True")]⟩
      [BcEvent.boot 1, BcEvent.boot 1, BcEvent.boot 1, BcEvent.boot 1]) = 0 ∧
    claimedStreak [BcEvent.boot 1, BcEvent.boot 1, BcEvent.boot 1, BcEvent.boot 1] = 4 := by
  constructor
  · decide
  · decide

/-- C3 (amended): across every sequence of boot evaluations and network
events started from a zero counter, the persisted unsuccessful-boot
counter equals the number of consecutive qualifying reset causes since
the last clearing event, where a clearing event is a non-qualifying
cause, a successful address acquisition, or a boot evaluation that
signals a recovery action (whose namespace erase also zeroes the
counter); and a non-qualifying cause resets the counter to 0 regardless
of its prior value. -/
theorem bootCounter_eq_amendedStreak :
    (∀ (st : SysState) (evs : List BcEvent), bootCounterOf st = 0 →
      bootCounterOf (runEvents st evs) = amendedStreak st evs) ∧
    (∀ (st : SysState) (reason : Nat), qualifyingReason reason = false →
      bootCounterOf (stepEvent st (BcEvent.boot reason)) = 0) := by
  constructor
  · intro st evs h0
    exact (bootCounterOf_runEvents evs st 0 h0 (by omega)).1
  · intro st reason hq
    show prefsGetUInt (checkResetReason reason st.prefs st.config).prefs "bootcounter" 0 = 0
    unfold checkResetReason
    simp [hq, prefsGetUInt, prefsGetRaw]

/-- Closed instance of C3's amended theorem on a mixed concrete trace:
two qualifying resets, an address acquisition, a qualifying and then a
non-qualifying reset. -/
theorem bootCounter_eq_amendedStreak_witness :
    bootCounterOf (⟨[], []⟩ : SysState) = 0 ∧
    bootCounterOf (runEvents ⟨[], []⟩
        [BcEvent.boot 1, BcEvent.boot 16,
         BcEvent.gotIp "10.0.0.2" "10.0.0.1" "255.255.255.0",
         BcEvent.boot 1, BcEvent.boot 12])
      = amendedStreak ⟨[], []⟩
        [BcEvent.boot 1, BcEvent.boot 16,
         BcEvent.gotIp "10.0.0.2" "10.0.0.1" "255.255.255.0",
         BcEvent.boot 1, BcEvent.boot 12] :=
  ⟨by decide,
    bootCounter_eq_amendedStreak.1 ⟨[], []⟩
      [BcEvent.boot 1, BcEvent.boot 16,
       BcEvent.gotIp "10.0.0.2" "10.0.0.1" "255.255.255.0",
       BcEvent.boot 1, BcEvent.boot 12] (by decide)⟩
